import Mathlib

/-!
# Verification of the MCP Jira/Confluence SSE transport layer

Shallow embedding of `src/mcp_jira_confluence/sse_server.py`: the credential
override resolution, the JSON-RPC request processor (`process_mcp_request`),
the synchronous HTTP endpoint (`mcp_endpoint`), and the SSE streaming loop
(`event_stream` / `SSETransport`).

Python values flowing through the request path are modelled by an inductive
`Json` type (Python `None` is `Json.null`).  Python exceptions are modelled
by `Except PyErr`.  The upstream collaborators that are not part of the
transport core (the MCP dispatcher in `server.py`, the Jira/Confluence client
classes and their configs in `jira.py`/`confluence.py`/`config.py`) are
modelled from the spec as opaque oracles and plain records.
-/

namespace McpSse

/-- Python/JSON values as they appear in the request-processing path. -/
inductive Json where
  | null
  | bool (b : Bool)
  | num (n : Int)
  | str (s : String)
  | arr (xs : List Json)
  | obj (fields : List (String × Json))

/-- Python exceptions that the transport code can raise or catch. -/
inductive PyErr where
  /-- `AttributeError`: calling `.get` on a non-dict value. -/
  | attributeError (attr : String)
  /-- any other exception, carrying its `str(e)` rendering. -/
  | exc (msg : String)
deriving DecidableEq, Repr

/-- The `str(e)` rendering used in `"data"` fields of error envelopes. -/
def PyErr.msg : PyErr → String
  | .attributeError a => "'object' has no attribute '" ++ a ++ "'"
  | .exc m => m

/-- Python `d.get(k)`: on a dict, the value or `None`; on anything else,
`AttributeError`. -/
def Json.pyGet (j : Json) (k : String) : Except PyErr Json :=
  match j with
  | .obj fields =>
    match fields.lookup k with
    | some v => .ok v
    | none => .ok .null
  | _ => .error (.attributeError "get")

/-- Python `d.get(k, default)`. -/
def Json.pyGetD (j : Json) (k : String) (d : Json) : Except PyErr Json :=
  match j with
  | .obj fields =>
    match fields.lookup k with
    | some v => .ok v
    | none => .ok d
  | _ => .error (.attributeError "get")

/-- Python `f"{v}"` of a request-level value, used for the
`"Method not found: {method}"` message. -/
def Json.pyFormat : Json → String
  | .null => "None"
  | .bool true => "True"
  | .bool false => "False"
  | .num n => toString n
  | .str s => s
  | .arr _ => "<list>"
  | .obj _ => "<dict>"

/-- Modelled from the spec: `config.JiraConfig` / `config.ConfluenceConfig`
(`config.py` is not under `src/`).  Per spec §3, a `ServiceConfig` is
`{baseUrl, credential, sslVerify}`, immutable once constructed; the fields
named here are exactly the keywords used at the construction sites in
`sse_server.py` (`url=`, `personal_token=`, `ssl_verify=`). -/
structure ServiceConfig where
  url : String
  personal_token : String
  ssl_verify : Bool
deriving DecidableEq, Repr

/-- Modelled from the spec: `jira.JiraClient` / `confluence.ConfluenceClient`
(not under `src/`).  Per spec §3 a `ServiceClient` wraps a `ServiceConfig`;
the lazily-created network session is irrelevant to the claims here and
omitted. -/
structure Client where
  config : ServiceConfig
deriving DecidableEq, Repr

/-- The auth headers consumed by `mcp_endpoint` / `sse_endpoint`
(`request.headers.get` returns `None` when the header is absent). -/
structure Headers where
  authorization : Option String
  x_jira_token : Option String
  x_confluence_token : Option String
deriving DecidableEq, Repr

/-- Python truthiness of an optional string: `None` and `""` are falsy. -/
def truthy : Option String → Bool
  | none => false
  | some s => !(s == "")

/-- Python `s.startswith(pre)`, character by character. -/
def strStartsWith (s pre : String) : Bool :=
  pre.data.isPrefixOf s.data

/-- Python `s[n:]`: drop the first `n` characters. -/
def strDrop (s : String) (n : Nat) : String :=
  ⟨s.data.drop n⟩

/-- Token resolution, `sse_server.py` lines 240-252 (and identically
136-147): read `authorization`, `x-jira-token`, `x-confluence-token`; when
the authorization header is truthy and starts with `"Bearer "`, the bearer
token (the header minus its 7-character prefix) fills each service token
that is not already truthy. -/
def resolveTokens (h : Headers) : Option String × Option String :=
  let jira_token := h.x_jira_token
  let confluence_token := h.x_confluence_token
  match h.authorization with
  | some auth_header =>
    if auth_header ≠ "" ∧ strStartsWith auth_header "Bearer " then
      let token := strDrop auth_header 7
      let jira_token := if truthy jira_token then jira_token else some token
      let confluence_token :=
        if truthy confluence_token then confluence_token else some token
      (jira_token, confluence_token)
    else
      (jira_token, confluence_token)
  | none => (jira_token, confluence_token)

/-- Override-config construction, `sse_server.py` lines 284-288 / 294-298:
copy the default client's `url` and `ssl_verify`, substitute the token. -/
def mkOverrideConfig (defaultConfig : ServiceConfig) (token : String) :
    ServiceConfig :=
  { url := defaultConfig.url
    personal_token := token
    ssl_verify := defaultConfig.ssl_verify }

/-- Temporary-client construction, `sse_server.py` lines 281-299: a client
over the override config when the token is truthy, `None` otherwise. -/
def resolveClient (defaultClient : Client) (token : Option String) :
    Option Client :=
  match token with
  | some t =>
    if t = "" then none
    else some { config := mkOverrideConfig defaultClient.config t }
  | none => none

/-- `{"jsonrpc": "2.0", "id": ..., "result": ...}` as built by the source. -/
def resultEnvelope (id : Json) (result : Json) : Json :=
  .obj [("jsonrpc", .str "2.0"), ("id", id), ("result", result)]

/-- `{"jsonrpc": "2.0", "id": ..., "error": {"code": ..., "message": ...,
"data"?: ...}}` as built by the source (the `-32601` envelope has no
`"data"` field). -/
def errorEnvelope (id : Json) (code : Int) (message : String)
    (data : Option String) : Json :=
  .obj [("jsonrpc", .str "2.0"), ("id", id),
    ("error", .obj ([("code", .num code), ("message", .str message)] ++
      match data with
      | some d => [("data", .str d)]
      | none => []))]

/-- One entry of the dispatcher's tool catalog (fields read at lines
333-337). -/
structure ToolInfo where
  name : String
  description : String
  inputSchema : Json

/-- One entry of the dispatcher's resource catalog (fields read at lines
416-421). -/
structure ResourceInfo where
  uri : String
  name : String
  description : String
  mimeType : String

/-- Modelled from the spec: the Tool/Resource Dispatcher (`server.py`, not
under `src/`).  Per spec §2 it is "invoked with a resolved client pair";
`handle_call_tool` and `handle_list_resources` read the module globals
`server.jira_client` / `server.confluence_client`, so they receive the
observed pair as an argument.  Each operation may raise, modelled by
`Except PyErr`. -/
structure Oracles where
  capabilities : Except PyErr Json
  handle_list_tools : Except PyErr (List ToolInfo)
  handle_call_tool : Json → Json → Client × Client → Except PyErr Json
  handle_list_resources : Client × Client → Except PyErr (List ResourceInfo)

/-- The module globals `server.jira_client` / `server.confluence_client`
that `process_mcp_request` temporarily reassigns (lines 363-370, 382-385,
403-410, 428-431). -/
structure ServerModuleState where
  jira_client : Client
  confluence_client : Client
deriving DecidableEq, Repr

/-- Instrumentation: one record per dispatcher invocation, carrying the
client pair the dispatcher observed. -/
inductive DispatchEvent where
  | listTools
  | callTool (observed : Client × Client)
  | listResources (observed : Client × Client)
deriving DecidableEq, Repr

/-- Python `method == s` where `method` is an arbitrary request value:
string equality when `method` is a string, `False` otherwise. -/
def isMethod (m : Json) (s : String) : Bool :=
  match m with
  | .str t => t == s
  | _ => false

/-- The `"tools"` array built at lines 331-337. -/
def toolsJson (ts : List ToolInfo) : Json :=
  .arr (ts.map fun t =>
    .obj [("name", .str t.name), ("description", .str t.description),
      ("inputSchema", t.inputSchema)])

/-- The `"resources"` array built at lines 414-421. -/
def resourcesJson (rs : List ResourceInfo) : Json :=
  .arr (rs.map fun r =>
    .obj [("uri", .str r.uri), ("name", .str r.name),
      ("description", .str r.description), ("mimeType", .str r.mimeType)])

/-- The `initialize` result payload, lines 313-324. -/
def initializeResult (caps : Json) : Json :=
  .obj [("protocolVersion", .str "2024-11-05"), ("capabilities", caps),
    ("serverInfo", .obj [("name", .str "mcp-jira-confluence"),
      ("version", .str "0.3.0")])]

/-- The body of the `try` block of `process_mcp_request` (lines 272-453):
field extraction, temporary-client resolution, and the method dispatch with
the global-swap/restore discipline for `tools/call` and `resources/list`.
Returns the response (or the escaping exception), the final module state,
and the list of dispatcher invocations with the pair each observed. -/
def process_body (o : Oracles) (jira_client confluence_client : Client)
    (st : ServerModuleState) (request_data : Json)
    (jira_token confluence_token : Option String) :
    Except PyErr Json × ServerModuleState × List DispatchEvent :=
  match request_data with
  | .obj fields =>
    let method := (fields.lookup "method").getD .null
    let params := (fields.lookup "params").getD (.obj [])
    let request_id := (fields.lookup "id").getD .null
    let temp_jira_client := resolveClient jira_client jira_token
    let temp_confluence_client :=
      resolveClient confluence_client confluence_token
    -- lines 302-303: computed but never used in the remainder of the source
    let _active_jira_client := temp_jira_client.getD jira_client
    let _active_confluence_client :=
      temp_confluence_client.getD confluence_client
    if isMethod method "initialize" then
      match o.capabilities with
      | .ok caps =>
        (.ok (resultEnvelope request_id (initializeResult caps)), st, [])
      | .error e => (.error e, st, [])
    else if isMethod method "tools/list" then
      match o.handle_list_tools with
      | .ok tool_list =>
        (.ok (resultEnvelope request_id (.obj [("tools", toolsJson tool_list)])),
          st, [.listTools])
      | .error e =>
        (.ok (errorEnvelope request_id (-32603) "Internal error"
          (some ("Failed to get tools: " ++ e.msg))), st, [.listTools])
    else if isMethod method "tools/call" then
      -- lines 357-358: `params.get` raises before the inner try when
      -- `params` is not a dict
      match params.pyGet "name", params.pyGetD "arguments" (.obj []) with
      | .ok tool_name, .ok arguments =>
        -- lines 362-385: snapshot originals, install temps, dispatch,
        -- restore in the `finally`
        let original_jira := st.jira_client
        let original_confluence := st.confluence_client
        let st1 := match temp_jira_client with
          | some c => { st with jira_client := c }
          | none => st
        let st2 := match temp_confluence_client with
          | some c => { st1 with confluence_client := c }
          | none => st1
        let observed := (st2.jira_client, st2.confluence_client)
        let outcome := o.handle_call_tool tool_name arguments observed
        let st3 : ServerModuleState :=
          { jira_client := original_jira,
            confluence_client := original_confluence }
        match outcome with
        | .ok result =>
          (.ok (resultEnvelope request_id (.obj [("content", result)])),
            st3, [.callTool observed])
        | .error e =>
          (.ok (errorEnvelope request_id (-32603) "Internal error"
            (some ("Tool execution failed: " ++ e.msg))), st3,
            [.callTool observed])
      | .error e, _ => (.error e, st, [])
      | _, .error e => (.error e, st, [])
    else if isMethod method "resources/list" then
      -- lines 402-431: same snapshot/install/dispatch/restore discipline
      let original_jira := st.jira_client
      let original_confluence := st.confluence_client
      let st1 := match temp_jira_client with
        | some c => { st with jira_client := c }
        | none => st
      let st2 := match temp_confluence_client with
        | some c => { st1 with confluence_client := c }
        | none => st1
      let observed := (st2.jira_client, st2.confluence_client)
      let outcome := o.handle_list_resources observed
      let st3 : ServerModuleState :=
        { jira_client := original_jira,
          confluence_client := original_confluence }
      match outcome with
      | .ok resource_list =>
        (.ok (resultEnvelope request_id
          (.obj [("resources", resourcesJson resource_list)])), st3,
          [.listResources observed])
      | .error e =>
        (.ok (errorEnvelope request_id (-32603) "Internal error"
          (some ("Failed to get resources: " ++ e.msg))), st3,
          [.listResources observed])
    else
      (.ok (errorEnvelope request_id (-32601)
        ("Method not found: " ++ method.pyFormat) none), st, [])
  | _ =>
    -- line 273: `request_data.get("method")` on a non-dict raises
    (.error (.attributeError "get"), st, [])

/-- `process_mcp_request` (lines 270-465): the body wrapped in the
catch-all `except` of lines 455-465, whose handler itself evaluates
`request_data.get("id")` (line 459) and therefore re-raises on a non-dict
body. -/
def process_mcp_request (o : Oracles) (jira_client confluence_client : Client)
    (st : ServerModuleState) (request_data : Json)
    (jira_token confluence_token : Option String) :
    Except PyErr Json × ServerModuleState × List DispatchEvent :=
  match process_body o jira_client confluence_client st request_data
      jira_token confluence_token with
  | (.ok resp, st', ev) => (.ok resp, st', ev)
  | (.error e, st', ev) =>
    match request_data.pyGet "id" with
    | .ok idv =>
      (.ok (errorEnvelope idv (-32603) "Internal error" (some e.msg)), st', ev)
    | .error e2 => (.error e2, st', ev)

/-- `mcp_endpoint` (lines 233-268): parse the body (a parse failure reaches
the `except` with `request_data` unbound, hence a nil id), resolve the
header tokens, run `process_mcp_request`; the `except` handler at lines
258-268 evaluates `request_data.get("id")` and so re-raises on a non-dict
body, escaping as an unstructured fault.  `rawBody` is `.error msg` when
`await request.json()` raises with rendering `msg`. -/
def mcp_endpoint (o : Oracles) (jira_client confluence_client : Client)
    (st : ServerModuleState) (rawBody : Except String Json)
    (headers : Headers) :
    Except PyErr Json × ServerModuleState × List DispatchEvent :=
  match rawBody with
  | .error parseMsg =>
    (.ok (errorEnvelope .null (-32603) "Internal error" (some parseMsg)),
      st, [])
  | .ok request_data =>
    let (jira_token, confluence_token) := resolveTokens headers
    match process_mcp_request o jira_client confluence_client st request_data
        jira_token confluence_token with
    | (.ok resp, st', ev) => (.ok resp, st', ev)
    | (.error e, st', ev) =>
      match request_data.pyGet "id" with
      | .ok idv =>
        (.ok (errorEnvelope idv (-32603) "Internal error" (some e.msg)),
          st', ev)
      | .error e2 => (.error e2, st', ev)

/-! ## SSE transport and streaming loop -/

/-- `SSETransport.connected_clients` (line 65): the set of per-connection
queues, modelled by queue ids. -/
structure SSETransport where
  connected_clients : Finset Nat
deriving DecidableEq

/-- `add_client` (lines 76-80): create a queue and add it to the set; the
fresh queue object is modelled by the id `q`. -/
def SSETransport.add_client (tr : SSETransport) (q : Nat) : SSETransport :=
  ⟨insert q tr.connected_clients⟩

/-- `remove_client` (lines 82-84): `set.discard`, removal that is safe when
the element is already absent. -/
def SSETransport.remove_client (tr : SSETransport) (q : Nat) : SSETransport :=
  ⟨tr.connected_clients.erase q⟩

/-- One SSE frame payload as yielded by `event_stream` (each is rendered as
`data: <payload>\n\n`): either `json.dumps` of an object the loop builds, or
a raw queued message string forwarded at line 194. -/
inductive Frame where
  | dataJson (j : Json)
  | dataRaw (s : String)

/-- The handshake message, lines 175-186. -/
def initMessage (caps : Json) : Json :=
  .obj [("jsonrpc", .str "2.0"),
    ("method", .str "notifications/initialized"),
    ("params", .obj [("protocolVersion", .str "2024-11-05"),
      ("capabilities", caps),
      ("serverInfo", .obj [("name", .str "mcp-jira-confluence"),
        ("version", .str "0.3.0")])])]

/-- The heartbeat message, lines 197-201. -/
def heartbeatMessage (timestamp : Int) : Json :=
  .obj [("jsonrpc", .str "2.0"),
    ("method", .str "notifications/heartbeat"),
    ("params", .obj [("timestamp", .num timestamp)])]

/-- The error frames of lines 205-213 (`"Internal error"`) and 218-226
(`"Stream error"`), both with code `-32603`. -/
def streamErrorMessage (message : String) (data : String) : Json :=
  .obj [("jsonrpc", .str "2.0"),
    ("error", .obj [("code", .num (-32603)), ("message", .str message),
      ("data", .str data)])]

/-- The `wait_for(..., timeout=30.0)` bound at line 193. -/
def HEARTBEAT_TIMEOUT : Int := 30

/-- Outcome of one `asyncio.wait_for(client_queue.get(), timeout=30.0)`
iteration while the queue is empty: either a broadcast message arrives
within `HEARTBEAT_TIMEOUT` time-units, or the wait times out at clock
reading `now` (triggering a heartbeat). -/
inductive IdleStep where
  | arrive (message : String)
  | timeout (now : Int)

/-- How the `while True` loop of lines 190-214 ends.  `close` is the
surrounding transport closing the connection (`GeneratorExit` at a
suspension point, not caught by the `except Exception` handlers);
`innerErr` is a non-timeout exception from the wait (line 203); `outerErr`
is an exception escaping to the outer handler (line 216). -/
inductive Terminal where
  | close
  | innerErr (e : String)
  | outerErr (e : String)
deriving DecidableEq, Repr

/-- The message-processing loop of lines 190-214: drain the already-queued
messages in FIFO order, then process idle-wait outcomes (forward a new
arrival, or emit a heartbeat on timeout), and finally end the loop as
`Terminal` prescribes: a connection close emits nothing further, either
error path emits exactly one `-32603` error frame and breaks. -/
def sseLoop (pending : List String) (idles : List IdleStep) (t : Terminal) :
    List Frame :=
  match pending, idles, t with
  | m :: rest, idles, t => .dataRaw m :: sseLoop rest idles t
  | [], .arrive s :: restIdles, t => .dataRaw s :: sseLoop [] restIdles t
  | [], .timeout now :: restIdles, t =>
    .dataJson (heartbeatMessage now) :: sseLoop [] restIdles t
  | [], [], .close => []
  | [], [], .innerErr e =>
    [.dataJson (streamErrorMessage "Internal error" e)]
  | [], [], .outerErr e =>
    [.dataJson (streamErrorMessage "Stream error" e)]
termination_by pending.length + idles.length

/-- How one run of the `event_stream` generator (lines 169-229) unfolds
after the client queue is registered: either an exception fires before or
at the handshake `yield` (caught by the outer handler, lines 216-226), or
the handshake is emitted and the loop runs over the given queue contents,
idle outcomes and terminal. -/
inductive StreamOutcome where
  | handshakeRaise (e : String)
  | run (pending : List String) (idles : List IdleStep) (t : Terminal)

/-- Instrumentation: the transport operations performed by one
`event_stream` run. -/
inductive TransportOp where
  | add (q : Nat)
  | remove (q : Nat)
deriving DecidableEq, Repr

/-- One full `event_stream` run (lines 169-229): register the queue, emit
frames per the outcome, and deregister in the `finally` (lines 227-229) on
every exit path.  Returns the emitted frames, the final transport state,
and the transport-operation log. -/
def event_stream_run (tr : SSETransport) (q : Nat) (caps : Json) :
    StreamOutcome → List Frame × SSETransport × List TransportOp
  | .handshakeRaise e =>
    let tr1 := tr.add_client q
    ([.dataJson (streamErrorMessage "Stream error" e)],
      tr1.remove_client q, [.add q, .remove q])
  | .run pending idles t =>
    let tr1 := tr.add_client q
    (.dataJson (initMessage caps) :: sseLoop pending idles t,
      tr1.remove_client q, [.add q, .remove q])

/-- Per-connection override-config construction in `sse_endpoint`, lines
150-167: a config over the override token when the token is truthy. -/
def resolveConfig (defaultClient : Client) (token : Option String) :
    Option ServiceConfig :=
  match token with
  | some t =>
    if t = "" then none else some (mkOverrideConfig defaultClient.config t)
  | none => none

/-- `sse_endpoint` (lines 131-231): resolve the header tokens, build the
temporary per-connection configs (lines 149-167) — which the rest of the
endpoint never reads, mirroring the source — and run the event stream. -/
def sse_endpoint (headers : Headers) (jira_client confluence_client : Client)
    (tr : SSETransport) (q : Nat) (caps : Json) (outcome : StreamOutcome) :
    List Frame × SSETransport × List TransportOp :=
  let (jira_token, confluence_token) := resolveTokens headers
  let _temp_jira_config := resolveConfig jira_client jira_token
  let _temp_confluence_config := resolveConfig confluence_client confluence_token
  event_stream_run tr q caps outcome

/-! ## Interleaved execution of two `tools/call` invocations

Modelled from the spec: spec §5 prescribes cooperative concurrency in which
"many in-flight requests … interleave on suspension points (network I/O
waits)", and the dispatcher (`server.handle_call_tool`, in `server.py`,
which is not under `src/`) reads the module globals during its execution,
which contains such suspension points.  Each invocation of the `tools/call`
branch is therefore split into its atomic segments: snapshot-and-install
(lines 363-370, no suspension inside), the dispatcher's read of the globals
(during the awaited call at line 373), and the `finally` restore (lines
382-385). -/

/-- Local state of one in-flight `tools/call` invocation. -/
structure TaskState where
  temp_jira : Option Client
  temp_confluence : Option Client
  pc : Nat
  saved : Option (Client × Client)
  observed : Option (Client × Client)
deriving DecidableEq, Repr

/-- A fresh invocation holding its resolved temporary clients. -/
def initTask (tj tc : Option Client) : TaskState :=
  ⟨tj, tc, 0, none, none⟩

/-- One atomic segment of an invocation, acting on the shared module
globals: `pc = 0` snapshots the originals and installs the temporary
clients (lines 363-370); `pc = 1` is the dispatcher reading the globals
(line 373); `pc = 2` is the `finally` restore (lines 382-385). -/
def taskStep (g : ServerModuleState) (ts : TaskState) :
    ServerModuleState × TaskState :=
  match ts.pc with
  | 0 =>
    let saved := (g.jira_client, g.confluence_client)
    let g1 := match ts.temp_jira with
      | some c => { g with jira_client := c }
      | none => g
    let g2 := match ts.temp_confluence with
      | some c => { g1 with confluence_client := c }
      | none => g1
    (g2, { ts with pc := 1, saved := some saved })
  | 1 =>
    let obs := some (g.jira_client, g.confluence_client)
    (g, { ts with pc := 2, observed := obs })
  | 2 =>
    match ts.saved with
    | some (oj, oc) => (⟨oj, oc⟩, { ts with pc := 3 })
    | none => (g, { ts with pc := 3 })
  | _ => (g, ts)

/-- Shared globals plus the two in-flight invocations. -/
structure InterleavedState where
  globals : ServerModuleState
  taskA : TaskState
  taskB : TaskState
deriving DecidableEq, Repr

/-- Run one scheduled segment: `false` advances invocation A, `true`
advances invocation B. -/
def schedStep (s : InterleavedState) (c : Bool) : InterleavedState :=
  if c then
    let (g, tB) := taskStep s.globals s.taskB
    ⟨g, s.taskA, tB⟩
  else
    let (g, tA) := taskStep s.globals s.taskA
    ⟨g, tA, s.taskB⟩

/-- Run a whole schedule of segments. -/
def runSchedule (s : InterleavedState) : List Bool → InterleavedState
  | [] => s
  | c :: rest => runSchedule (schedStep s c) rest

/-! ## Derived definitions used by the theorems -/

/-- The bearer token as `mcp_endpoint` extracts it (lines 246-247): present
exactly when the authorization header is truthy and starts with
`"Bearer "`, in which case it is the header minus the 7-character prefix. -/
def bearerToken (h : Headers) : Option String :=
  match h.authorization with
  | some a =>
    if a ≠ "" ∧ strStartsWith a "Bearer " then some (strDrop a 7) else none
  | none => none

/-- The client pair the dispatcher is meant to observe for one invocation:
the temporary client where one was resolved, the default otherwise. -/
def resolvedPair (jc cc : Client) (jt ct : Option String) : Client × Client :=
  ((resolveClient jc jt).getD jc, (resolveClient cc ct).getD cc)

/-- A well-formed outbound JSON-RPC envelope carrying the inbound id:
either a result envelope or an error envelope. -/
def envelopeShape (idv : Json) (r : Json) : Prop :=
  (∃ v, r = resultEnvelope idv v) ∨
  (∃ code msg dta, r = errorEnvelope idv code msg dta)

/-- The frame one idle-wait outcome produces: forward an arrival, emit a
heartbeat on timeout. -/
def idleFrame : IdleStep → Frame
  | .arrive s => .dataRaw s
  | .timeout now => .dataJson (heartbeatMessage now)

/-- The frames emitted when the loop ends. -/
def terminalFrames : Terminal → List Frame
  | .close => []
  | .innerErr e => [.dataJson (streamErrorMessage "Internal error" e)]
  | .outerErr e => [.dataJson (streamErrorMessage "Stream error" e)]

/-- The raw queued-message payload of a frame, if it is one. -/
def rawMsg : Frame → Option String
  | .dataRaw s => some s
  | _ => none

/-- The message an idle step delivers, if it delivers one. -/
def arriveMsg : IdleStep → Option String
  | .arrive s => some s
  | _ => none

/-- Whether a frame is a JSON-RPC error frame (carries an `"error"`
member). -/
def isErrorFrame : Frame → Bool
  | .dataJson (.obj fs) => (fs.lookup "error").isSome
  | _ => false

/-! ## Concrete fixtures for witnesses and counterexamples -/

/-- A concrete default Jira client. -/
def jiraDefault : Client := ⟨⟨"https://jira.example", "default-jira-token", true⟩⟩

/-- A concrete default Confluence client. -/
def confluenceDefault : Client :=
  ⟨⟨"https://conf.example", "default-conf-token", false⟩⟩

/-- The module-global state holding the default clients. -/
def defaultState : ServerModuleState := ⟨jiraDefault, confluenceDefault⟩

/-- Dispatcher oracles that always succeed with trivial payloads. -/
def trivialOracles : Oracles :=
  ⟨.ok .null, .ok [], fun _ _ _ => .ok .null, fun _ => .ok []⟩

/-- A concrete `tools/call` request body. -/
def sampleCallBody : Json :=
  .obj [("method", .str "tools/call"), ("id", .num 1),
    ("params", .obj [("name", .str "create-issue")])]

/-! ## Claim theorems -/

/-- C6: a request body that fails to parse as JSON yields the `-32603`
error envelope with a nil id and message `"Internal error"`, the module
globals are untouched, and no dispatcher invocation occurs. -/
theorem C6_parse_failure_envelope (o : Oracles) (jc cc : Client)
    (st : ServerModuleState) (headers : Headers) (msg : String) :
    mcp_endpoint o jc cc st (.error msg) headers =
      (.ok (errorEnvelope .null (-32603) "Internal error" (some msg)),
        st, []) := rfl

/-- C10: the SSE event stream is independent of the request's auth headers:
two `/sse` requests differing only in `Authorization` /`X-Jira-Token` /
`X-Confluence-Token` produce identical frames, identical transport states
and identical transport operations given the same queue contents, idle
outcomes and terminal — the per-connection override configs are computed
and never read. -/
theorem C10_sse_auth_independence (h1 h2 : Headers) (jc cc : Client)
    (tr : SSETransport) (q : Nat) (caps : Json) (outcome : StreamOutcome) :
    sse_endpoint h1 jc cc tr q caps outcome =
      sse_endpoint h2 jc cc tr q caps outcome := rfl

/-- C9: every `event_stream` run performs exactly the transport operations
register-then-deregister on every exit path, restoring the transport to its
prior state when the queue id was fresh; and `remove_client` is idempotent:
removing an absent queue leaves the set unchanged (and, being a total
function, cannot raise). -/
theorem C9_cleanup_invariant (tr : SSETransport) (q : Nat) (caps : Json)
    (outcome : StreamOutcome) :
    ((event_stream_run tr q caps outcome).2.2 =
      [TransportOp.add q, TransportOp.remove q]) ∧
    ((event_stream_run tr q caps outcome).2.2.count (TransportOp.remove q)
      = 1) ∧
    (q ∉ tr.connected_clients → (event_stream_run tr q caps outcome).2.1 = tr) ∧
    (∀ (tr' : SSETransport) (q' : Nat), q' ∉ tr'.connected_clients →
      tr'.remove_client q' = tr') := by
  refine ⟨?_, ?_, ?_, ?_⟩
  · cases outcome <;> rfl
  · cases outcome <;>
      simp [event_stream_run, List.count_cons]
  · intro hq
    cases tr with
    | mk s =>
      cases outcome <;>
        simp [event_stream_run, SSETransport.add_client,
          SSETransport.remove_client, Finset.erase_insert, hq]
  · intro tr' q' hq'
    cases tr' with
    | mk s => simp [SSETransport.remove_client, Finset.erase_eq_of_not_mem hq']

/-- C9 witness: a concrete run over an empty transport with a fresh queue
id restores the empty transport. -/
theorem C9_cleanup_witness :
    (0 ∉ (SSETransport.mk ∅).connected_clients) ∧
    ((event_stream_run ⟨∅⟩ 0 .null (.run [] [] .close)).2.1 =
      (SSETransport.mk ∅)) :=
  ⟨by simp, (C9_cleanup_invariant ⟨∅⟩ 0 .null (.run [] [] .close)).2.2.1
    (by simp)⟩

/-- C4: a resolved override config copies the default client's `url` and
`ssl_verify` unchanged and substitutes exactly the supplied token as
`personal_token`; moreover the construction reads nothing else of the
default client, so two defaults agreeing on `url` and `ssl_verify` resolve
identically (in particular the default config is never written — the
embedding of the resolution step is a pure function of it). -/
theorem C4_override_copies_defaults :
    (∀ (d : Client) (tok : Option String) (c : Client),
      resolveClient d tok = some c →
        c.config.url = d.config.url ∧
        c.config.ssl_verify = d.config.ssl_verify ∧
        tok = some c.config.personal_token) ∧
    (∀ (d d' : Client) (tok : Option String),
      d.config.url = d'.config.url →
      d.config.ssl_verify = d'.config.ssl_verify →
        resolveClient d tok = resolveClient d' tok) := by
  constructor
  · intro d tok c h
    cases tok with
    | none => simp [resolveClient] at h
    | some t =>
      by_cases ht : t = ""
      · simp [resolveClient, ht] at h
      · simp [resolveClient, ht, mkOverrideConfig] at h
        subst h
        simp [mkOverrideConfig]
  · intro d d' tok h1 h2
    cases tok with
    | none => rfl
    | some t =>
      by_cases ht : t = "" <;>
        simp [resolveClient, ht, mkOverrideConfig, h1, h2]

/-- C4 witness: resolving a concrete token against the concrete default
client copies its url and ssl-verify flag and carries the token. -/
theorem C4_override_witness :
    resolveClient jiraDefault (some "tok-x") =
      some ⟨⟨"https://jira.example", "tok-x", true⟩⟩ ∧
    (⟨⟨"https://jira.example", "tok-x", true⟩⟩ : Client).config.url =
      jiraDefault.config.url ∧
    (⟨⟨"https://jira.example", "tok-x", true⟩⟩ : Client).config.ssl_verify =
      jiraDefault.config.ssl_verify ∧
    (some "tok-x" : Option String) =
      some (⟨⟨"https://jira.example", "tok-x", true⟩⟩ : Client).config.personal_token := by
  have h : resolveClient jiraDefault (some "tok-x") =
      some ⟨⟨"https://jira.example", "tok-x", true⟩⟩ := by decide
  have h2 := (C4_override_copies_defaults.1 jiraDefault (some "tok-x")
    ⟨⟨"https://jira.example", "tok-x", true⟩⟩ h)
  exact ⟨h, h2.1, h2.2.1, h2.2.2⟩

/-- Characterization of token resolution in terms of the bearer token:
a truthy service header is kept; otherwise the bearer token (when the
bearer condition holds) fills the slot. -/
theorem resolveTokens_eq (h : Headers) :
    resolveTokens h =
      (match bearerToken h with
       | some tok =>
         ((if truthy h.x_jira_token then h.x_jira_token else some tok),
          (if truthy h.x_confluence_token then h.x_confluence_token
           else some tok))
       | none => (h.x_jira_token, h.x_confluence_token)) := by
  obtain ⟨auth, xj, xc⟩ := h
  cases auth with
  | none => rfl
  | some a =>
    by_cases h1 : a = ""
    · simp [resolveTokens, bearerToken, h1]
    · by_cases h2 : strStartsWith a "Bearer " <;>
        simp [resolveTokens, bearerToken, h1, h2]

/-- C3 counterexample: with `Authorization: Bearer abc` and an
`X-Jira-Token` header that is present but empty, the code resolves the
Jira token to the bearer token `"abc"`, not to the service-specific
header's token `""` — contradicting "if a service-specific header is
present, its token is used for that service regardless of the bearer
token". -/
theorem C3_empty_header_counterexample :
    (Headers.mk (some "Bearer abc") (some "") none).x_jira_token =
      some "" ∧
    (resolveTokens (Headers.mk (some "Bearer abc") (some "") none)).1 =
      some "abc" ∧
    (some "abc" : Option String) ≠ some "" :=
  ⟨rfl, by decide, by decide⟩

/-- C3 (amended): header resolution with Python truthiness — an
empty-valued header behaves as absent.  A bearer token fills each service
slot whose service-specific header is not truthy; a non-empty
service-specific header wins for its service regardless of the bearer;
when neither the bearer nor the service header is truthy, no override is
created (so the default client is used); and a non-empty winning bearer
token yields an override config carrying it. -/
theorem C3_amended_resolution (h : Headers) (jc cc : Client) :
    (∀ t, bearerToken h = some t →
      (truthy h.x_jira_token = false → (resolveTokens h).1 = some t) ∧
      (truthy h.x_confluence_token = false → (resolveTokens h).2 = some t)) ∧
    (∀ t, h.x_jira_token = some t → t ≠ "" →
      (resolveTokens h).1 = some t) ∧
    (∀ t, h.x_confluence_token = some t → t ≠ "" →
      (resolveTokens h).2 = some t) ∧
    (truthy (bearerToken h) = false → truthy h.x_jira_token = false →
      resolveClient jc (resolveTokens h).1 = none ∧
      (resolveClient jc (resolveTokens h).1).getD jc = jc) ∧
    (truthy (bearerToken h) = false → truthy h.x_confluence_token = false →
      resolveClient cc (resolveTokens h).2 = none ∧
      (resolveClient cc (resolveTokens h).2).getD cc = cc) ∧
    (∀ t, bearerToken h = some t → t ≠ "" → truthy h.x_jira_token = false →
      resolveClient jc (resolveTokens h).1 =
        some ⟨mkOverrideConfig jc.config t⟩) ∧
    (∀ t, bearerToken h = some t → t ≠ "" →
      truthy h.x_confluence_token = false →
      resolveClient cc (resolveTokens h).2 =
        some ⟨mkOverrideConfig cc.config t⟩) := by
  rw [resolveTokens_eq h]
  refine ⟨?_, ?_, ?_, ?_, ?_, ?_, ?_⟩
  · intro t hb
    rw [hb]
    constructor
    · intro hj; simp [hj]
    · intro hc; simp [hc]
  · intro t hx ht
    have htr : truthy (some t) = true := by simp [truthy, ht]
    cases hb : bearerToken h <;> simp [hx, htr]
  · intro t hx ht
    have htr : truthy (some t) = true := by simp [truthy, ht]
    cases hb : bearerToken h <;> simp [hx, htr]
  · intro hb hj
    cases hbt : bearerToken h with
    | none =>
      simp only [hbt]
      rcases hx : h.x_jira_token with _ | t
      · exact ⟨rfl, rfl⟩
      · have : t = "" := by
          have := hj; rw [hx] at this; simpa [truthy] using this
        subst this
        exact ⟨by simp [resolveClient], by simp [resolveClient]⟩
    | some t =>
      have : t = "" := by
        rw [hbt] at hb; simpa [truthy] using hb
      subst this
      simp only [hbt, hj, if_false]
      exact ⟨by simp [resolveClient], by simp [resolveClient]⟩
  · intro hb hc
    cases hbt : bearerToken h with
    | none =>
      simp only [hbt]
      rcases hx : h.x_confluence_token with _ | t
      · exact ⟨rfl, rfl⟩
      · have : t = "" := by
          have := hc; rw [hx] at this; simpa [truthy] using this
        subst this
        exact ⟨by simp [resolveClient], by simp [resolveClient]⟩
    | some t =>
      have : t = "" := by
        rw [hbt] at hb; simpa [truthy] using hb
      subst this
      simp only [hbt, hc, if_false]
      exact ⟨by simp [resolveClient], by simp [resolveClient]⟩
  · intro t hb ht hj
    rw [hb]
    simp [hj, resolveClient, ht, mkOverrideConfig]
  · intro t hb ht hc
    rw [hb]
    simp [hc, resolveClient, ht, mkOverrideConfig]

/-- C3 witness: bearer `abc` with a service-specific `X-Confluence-Token`
`xyz` resolves Jira to the bearer and Confluence to its own header, and
the Jira override config carries the bearer token. -/
theorem C3_amended_witness :
    (resolveTokens ⟨some "Bearer abc", none, some "xyz"⟩).1 = some "abc" ∧
    (resolveTokens ⟨some "Bearer abc", none, some "xyz"⟩).2 = some "xyz" ∧
    resolveClient jiraDefault
        (resolveTokens ⟨some "Bearer abc", none, some "xyz"⟩).1 =
      some ⟨mkOverrideConfig jiraDefault.config "abc"⟩ := by
  obtain ⟨h1, h2, h3, h4, h5, h6, h7⟩ :=
    C3_amended_resolution ⟨some "Bearer abc", none, some "xyz"⟩
      jiraDefault confluenceDefault
  refine ⟨(h1 "abc" (by decide)).1 rfl, h3 "xyz" rfl (by decide),
    h6 "abc" (by decide) (by decide) rfl⟩

/-- C2 (failing execution): two interleaved `tools/call` invocations with
different Jira tokens, scheduled A-install, B-install, A-dispatch,
A-restore, B-dispatch, B-restore.  Invocation A's dispatcher observes B's
temporary client (token `tokenB`) instead of A's own override, and after
both invocations finish the module globals hold A's temporary client
instead of the default — the shared-global swap is not isolated per
invocation. -/
theorem C2_interleaved_observation :
    (runSchedule
      ⟨defaultState,
        initTask (resolveClient jiraDefault (some "tokenA")) none,
        initTask (resolveClient jiraDefault (some "tokenB")) none⟩
      [false, true, false, false, true, true]).taskA.observed =
      some (⟨mkOverrideConfig jiraDefault.config "tokenB"⟩,
        confluenceDefault) ∧
    resolveClient jiraDefault (some "tokenA") =
      some ⟨mkOverrideConfig jiraDefault.config "tokenA"⟩ ∧
    (Client.mk (mkOverrideConfig jiraDefault.config "tokenB")) ≠
      ⟨mkOverrideConfig jiraDefault.config "tokenA"⟩ ∧
    (runSchedule
      ⟨defaultState,
        initTask (resolveClient jiraDefault (some "tokenA")) none,
        initTask (resolveClient jiraDefault (some "tokenB")) none⟩
      [false, true, false, false, true, true]).globals ≠ defaultState :=
  ⟨rfl, rfl, by decide, by decide⟩

/-- C7: any well-parsed envelope whose method is none of `initialize`,
`tools/list`, `tools/call`, `resources/list` yields the `-32601` envelope
`"Method not found: <method>"` carrying the request's id, with the module
globals unchanged and no dispatcher invocation. -/
theorem C7_unknown_method (o : Oracles) (jc cc : Client)
    (st : ServerModuleState) (fields : List (String × Json))
    (jt ct : Option String)
    (h1 : isMethod ((fields.lookup "method").getD .null) "initialize" = false)
    (h2 : isMethod ((fields.lookup "method").getD .null) "tools/list" = false)
    (h3 : isMethod ((fields.lookup "method").getD .null) "tools/call" = false)
    (h4 : isMethod ((fields.lookup "method").getD .null) "resources/list"
      = false) :
    process_mcp_request o jc cc st (.obj fields) jt ct =
      (.ok (errorEnvelope ((fields.lookup "id").getD .null) (-32601)
        ("Method not found: " ++
          ((fields.lookup "method").getD .null).pyFormat) none), st, []) := by
  simp [process_mcp_request, process_body, h1, h2, h3, h4]

/-- C7 witness: method `"nope"` with id `1` yields the `-32601` envelope
with the same id and message `"Method not found: nope"`. -/
theorem C7_unknown_method_witness :
    process_mcp_request trivialOracles jiraDefault confluenceDefault
      defaultState (.obj [("method", .str "nope"), ("id", .num 1)])
      none none =
      (.ok (errorEnvelope (.num 1) (-32601) "Method not found: nope" none),
        defaultState, []) :=
  C7_unknown_method trivialOracles jiraDefault confluenceDefault defaultState
    [("method", .str "nope"), ("id", .num 1)] none none rfl rfl rfl rfl

/-- Closed form of the streaming loop: queued messages in FIFO order, then
one frame per idle outcome, then the terminal frames. -/
theorem sseLoop_eq (pending : List String) (idles : List IdleStep)
    (t : Terminal) :
    sseLoop pending idles t =
      pending.map Frame.dataRaw ++ idles.map idleFrame ++ terminalFrames t := by
  induction pending with
  | cons m rest ih => simp [sseLoop, ih]
  | nil =>
    induction idles with
    | nil => cases t <;> simp [sseLoop, terminalFrames]
    | cons i is ih => cases i <;> simp [sseLoop, idleFrame, ih]

/-- Forwarded raw frames carry exactly the raw messages. -/
theorem rawMsg_map_dataRaw (ms : List String) :
    (ms.map Frame.dataRaw).filterMap rawMsg = ms := by
  induction ms with
  | nil => rfl
  | cons m rest ih => simp [rawMsg, ih]

/-- Idle-outcome frames carry exactly the arrived messages. -/
theorem rawMsg_map_idleFrame (is : List IdleStep) :
    (is.map idleFrame).filterMap rawMsg = is.filterMap arriveMsg := by
  induction is with
  | nil => rfl
  | cons i rest ih =>
    cases i <;> simp [idleFrame, rawMsg, arriveMsg, ih]

/-- Terminal frames never carry a raw message. -/
theorem rawMsg_terminalFrames (t : Terminal) :
    (terminalFrames t).filterMap rawMsg = [] := by
  cases t <;> rfl

/-- Forwarded raw frames are never error frames. -/
theorem no_error_in_raw (ms : List String) :
    (ms.map Frame.dataRaw).filter isErrorFrame = [] := by
  induction ms with
  | nil => rfl
  | cons m rest ih => simp [isErrorFrame, ih]

/-- Idle-outcome frames (forwards and heartbeats) are never error
frames. -/
theorem no_error_in_idle (is : List IdleStep) :
    (is.map idleFrame).filter isErrorFrame = [] := by
  induction is with
  | nil => rfl
  | cons i rest ih =>
    cases i with
    | arrive s => simpa [idleFrame, isErrorFrame] using ih
    | timeout now =>
      have h : isErrorFrame (.dataJson (heartbeatMessage now)) = false := rfl
      simpa [idleFrame, List.filter_cons, h] using ih

/-- C8: for every SSE connection whose handshake is emitted, the first
frame is the handshake carrying protocol version, capabilities and server
identity; the subsequent frames are, in order, the queued messages in FIFO
enqueue order interleaved with one heartbeat (carrying the current
timestamp) per timed-out wait; the raw messages forwarded are exactly the
enqueued ones in order; when waiting raises a non-timeout error, or an
error escapes to the outer handler, the stream ends with exactly one
`-32603` error frame; a plain connection close emits no error frame; and a
handshake-time exception yields exactly one `-32603` stream-error frame. -/
theorem C8_stream_frames (tr : SSETransport) (q : Nat) (caps : Json)
    (pending : List String) (idles : List IdleStep) (t : Terminal) :
    ((event_stream_run tr q caps (.run pending idles t)).1.head? =
      some (.dataJson (initMessage caps))) ∧
    ((event_stream_run tr q caps (.run pending idles t)).1 =
      .dataJson (initMessage caps) ::
        (pending.map Frame.dataRaw ++ idles.map idleFrame ++
          terminalFrames t)) ∧
    ((event_stream_run tr q caps (.run pending idles t)).1.filterMap rawMsg =
      pending ++ idles.filterMap arriveMsg) ∧
    (∀ e, t = .innerErr e →
      (event_stream_run tr q caps (.run pending idles t)).1.getLast? =
        some (.dataJson (streamErrorMessage "Internal error" e)) ∧
      ((event_stream_run tr q caps (.run pending idles t)).1.filter
        isErrorFrame).length = 1) ∧
    (∀ e, t = .outerErr e →
      (event_stream_run tr q caps (.run pending idles t)).1.getLast? =
        some (.dataJson (streamErrorMessage "Stream error" e)) ∧
      ((event_stream_run tr q caps (.run pending idles t)).1.filter
        isErrorFrame).length = 1) ∧
    (t = .close →
      ((event_stream_run tr q caps (.run pending idles t)).1.filter
        isErrorFrame).length = 0) ∧
    (∀ e, (event_stream_run tr q caps (.handshakeRaise e)).1 =
      [.dataJson (streamErrorMessage "Stream error" e)]) := by
  have hmain : (event_stream_run tr q caps (.run pending idles t)).1 =
      .dataJson (initMessage caps) ::
        (pending.map Frame.dataRaw ++ idles.map idleFrame ++
          terminalFrames t) := by
    simp [event_stream_run, sseLoop_eq]
  have hhs : isErrorFrame (.dataJson (initMessage caps)) = false := rfl
  have hraw : rawMsg (.dataJson (initMessage caps)) = none := rfl
  refine ⟨by rw [hmain]; rfl, hmain, ?_, ?_, ?_, ?_, fun e => rfl⟩
  · rw [hmain]
    simp only [List.filterMap_cons, hraw, List.filterMap_append,
      rawMsg_map_dataRaw, rawMsg_map_idleFrame, rawMsg_terminalFrames,
      List.append_nil]
  · intro e he
    subst he
    rw [hmain]
    constructor
    · rw [show Frame.dataJson (initMessage caps) ::
        (pending.map Frame.dataRaw ++ idles.map idleFrame ++
          terminalFrames (.innerErr e)) =
        (Frame.dataJson (initMessage caps) ::
          (pending.map Frame.dataRaw ++ idles.map idleFrame)) ++
          [.dataJson (streamErrorMessage "Internal error" e)] by
        simp [terminalFrames]]
      exact List.getLast?_concat _
    · have herr : isErrorFrame
          (.dataJson (streamErrorMessage "Internal error" e)) = true := rfl
      simp [List.filter_cons, List.filter_append, hhs, herr,
        no_error_in_raw, no_error_in_idle, terminalFrames]
  · intro e he
    subst he
    rw [hmain]
    constructor
    · rw [show Frame.dataJson (initMessage caps) ::
        (pending.map Frame.dataRaw ++ idles.map idleFrame ++
          terminalFrames (.outerErr e)) =
        (Frame.dataJson (initMessage caps) ::
          (pending.map Frame.dataRaw ++ idles.map idleFrame)) ++
          [.dataJson (streamErrorMessage "Stream error" e)] by
        simp [terminalFrames]]
      exact List.getLast?_concat _
    · have herr : isErrorFrame
          (.dataJson (streamErrorMessage "Stream error" e)) = true := rfl
      simp [List.filter_cons, List.filter_append, hhs, herr,
        no_error_in_raw, no_error_in_idle, terminalFrames]
  · intro he
    subst he
    rw [hmain]
    simp [List.filter_cons, List.filter_append, hhs, no_error_in_raw,
      no_error_in_idle, terminalFrames]

/-- C8 witness: a concrete stream with two queued messages, one arrival,
one heartbeat and an inner error ends in exactly one error frame. -/
theorem C8_stream_witness :
    (event_stream_run ⟨∅⟩ 0 .null
      (.run ["m1", "m2"] [.arrive "m3", .timeout 100]
        (.innerErr "boom"))).1.getLast? =
      some (.dataJson (streamErrorMessage "Internal error" "boom")) ∧
    ((event_stream_run ⟨∅⟩ 0 .null
      (.run ["m1", "m2"] [.arrive "m3", .timeout 100]
        (.innerErr "boom"))).1.filter isErrorFrame).length = 1 :=
  (C8_stream_frames ⟨∅⟩ 0 .null ["m1", "m2"] [.arrive "m3", .timeout 100]
    (.innerErr "boom")).2.2.2.1 "boom" rfl

/-- `dict.get(k)` on an object always succeeds with the looked-up value or
`None`. -/
theorem pyGet_obj (fields : List (String × Json)) (k : String) :
    (Json.obj fields).pyGet k = .ok ((fields.lookup k).getD .null) := by
  rcases h : fields.lookup k with _ | v <;> simp [Json.pyGet, h]

/-- `process_body` leaves the module globals exactly as it found them, on
every branch and on both dispatcher outcomes (the `finally` restore). -/
theorem process_body_state (o : Oracles) (jc cc : Client)
    (st : ServerModuleState) (rd : Json) (jt ct : Option String) :
    (process_body o jc cc st rd jt ct).2.1 = st := by
  cases rd <;> try rfl
  case obj fields =>
    simp only [process_body]
    repeat' split
    all_goals rfl

/-- Starting from globals holding the defaults, every dispatcher invocation
performed by `process_body` observes exactly the resolved override pair. -/
theorem process_body_events (o : Oracles) (jc cc : Client)
    (rd : Json) (jt ct : Option String) (p : Client × Client)
    (hp : DispatchEvent.callTool p ∈
        (process_body o jc cc ⟨jc, cc⟩ rd jt ct).2.2 ∨
      DispatchEvent.listResources p ∈
        (process_body o jc cc ⟨jc, cc⟩ rd jt ct).2.2) :
    p = resolvedPair jc cc jt ct := by
  cases rd
  case obj fields =>
    simp only [process_body] at hp
    repeat' split at hp
    all_goals simp_all [resolvedPair]
  all_goals simp [process_body] at hp

/-- On a dict body, `process_body` either returns an envelope carrying the
request id, or raises. -/
theorem process_body_obj_envelope (o : Oracles) (jc cc : Client)
    (st : ServerModuleState) (fields : List (String × Json))
    (jt ct : Option String) :
    (∃ resp st2 ev,
      process_body o jc cc st (.obj fields) jt ct = (.ok resp, st2, ev) ∧
      envelopeShape ((fields.lookup "id").getD .null) resp) ∨
    (∃ e st2 ev,
      process_body o jc cc st (.obj fields) jt ct = (.error e, st2, ev)) := by
  simp only [process_body]
  repeat' split
  all_goals first
    | (left; exact ⟨_, _, _, rfl, .inl ⟨_, rfl⟩⟩)
    | (left; exact ⟨_, _, _, rfl, .inr ⟨_, _, _, rfl⟩⟩)
    | (right; exact ⟨_, _, _, rfl⟩)

/-- The catch-all handler of `process_mcp_request` preserves the state and
event components of `process_body`. -/
theorem process_mcp_request_snd (o : Oracles) (jc cc : Client)
    (st : ServerModuleState) (rd : Json) (jt ct : Option String) :
    (process_mcp_request o jc cc st rd jt ct).2 =
      (process_body o jc cc st rd jt ct).2 := by
  rcases h : process_body o jc cc st rd jt ct with ⟨res, st2, ev⟩
  cases res with
  | ok r => simp [process_mcp_request, h]
  | error e =>
    simp only [process_mcp_request, h]
    cases hg : rd.pyGet "id" with
    | ok idv => simp [hg]
    | error e2 => simp [hg]

/-- On a dict body, `process_mcp_request` always returns one envelope
carrying the request id (its catch-all handler succeeds). -/
theorem process_mcp_request_obj_envelope (o : Oracles) (jc cc : Client)
    (st : ServerModuleState) (fields : List (String × Json))
    (jt ct : Option String) :
    ∃ resp st2 ev,
      process_mcp_request o jc cc st (.obj fields) jt ct =
        (.ok resp, st2, ev) ∧
      envelopeShape ((fields.lookup "id").getD .null) resp := by
  rcases process_body_obj_envelope o jc cc st fields jt ct with
    ⟨resp, st2, ev, h, hs⟩ | ⟨e, st2, ev, h⟩
  · exact ⟨resp, st2, ev, by simp [process_mcp_request, h], hs⟩
  · refine ⟨errorEnvelope ((fields.lookup "id").getD .null) (-32603)
      "Internal error" (some e.msg), st2, ev, ?_, .inr ⟨_, _, _, rfl⟩⟩
    simp [process_mcp_request, h, pyGet_obj]

/-- C1: for every `process_mcp_request` invocation — in particular every
`tools/call` and `resources/list` — the module globals after the call equal
their values before it, whether the dispatcher call succeeds or raises; and
when the globals held the default clients at entry, every dispatcher
invocation observes exactly the resolved override pair (the temporary
client where a truthy token was supplied, the default client otherwise). -/
theorem C1_context_install_restore (o : Oracles) (jc cc : Client)
    (st : ServerModuleState) (request_data : Json) (jt ct : Option String) :
    ((process_mcp_request o jc cc st request_data jt ct).2.1 = st) ∧
    (st = ⟨jc, cc⟩ → ∀ p : Client × Client,
      (DispatchEvent.callTool p ∈
        (process_mcp_request o jc cc st request_data jt ct).2.2 ∨
       DispatchEvent.listResources p ∈
        (process_mcp_request o jc cc st request_data jt ct).2.2) →
      p = resolvedPair jc cc jt ct) := by
  constructor
  · rw [show (process_mcp_request o jc cc st request_data jt ct).2.1 =
      ((process_mcp_request o jc cc st request_data jt ct).2).1 from rfl,
      process_mcp_request_snd]
    exact process_body_state o jc cc st request_data jt ct
  · intro hst p hp
    subst hst
    rw [process_mcp_request_snd] at hp
    exact process_body_events o jc cc request_data jt ct p hp

/-- C1 witness: a concrete `tools/call` with a Jira token override — the
dispatcher observes the temporary Jira client paired with the default
Confluence client, and the globals are restored to the defaults. -/
theorem C1_install_restore_witness :
    (process_mcp_request trivialOracles jiraDefault confluenceDefault
      defaultState sampleCallBody (some "tokenA") none).2.1 = defaultState ∧
    (⟨mkOverrideConfig jiraDefault.config "tokenA"⟩, confluenceDefault) =
      resolvedPair jiraDefault confluenceDefault (some "tokenA") none := by
  have h := C1_context_install_restore trivialOracles jiraDefault
    confluenceDefault defaultState sampleCallBody (some "tokenA") none
  refine ⟨h.1, h.2 rfl
    (⟨mkOverrideConfig jiraDefault.config "tokenA"⟩, confluenceDefault)
    (Or.inl ?_)⟩
  decide

/-- C5 counterexample: a body that parses as JSON but is not an object
(here `[]`) escapes `mcp_endpoint` as an unhandled `AttributeError` — an
unstructured fault, not a JSON-RPC envelope — because every `except`
handler in the chain itself calls `request_data.get("id")`. -/
theorem C5_nonobject_body_fault :
    mcp_endpoint trivialOracles jiraDefault confluenceDefault defaultState
      (.ok (.arr [])) ⟨none, none, none⟩ =
      (.error (.attributeError "get"), defaultState, []) ∧
    ∀ resp : Json,
      (Except.error (PyErr.attributeError "get") : Except PyErr Json) ≠
        .ok resp :=
  ⟨rfl, fun _ h => Except.noConfusion h⟩

/-- C5 (amended): for every JSON body that parses to a JSON object, the
caller receives exactly one well-formed JSON-RPC envelope — a result or an
error envelope — whose id is the inbound id (or null when absent), for
every method branch and every dispatcher outcome. -/
theorem C5_amended_envelope (o : Oracles) (jc cc : Client)
    (st : ServerModuleState) (fields : List (String × Json))
    (headers : Headers) :
    ∃ resp st2 ev,
      mcp_endpoint o jc cc st (.ok (.obj fields)) headers =
        (.ok resp, st2, ev) ∧
      envelopeShape ((fields.lookup "id").getD .null) resp := by
  rcases hrt : resolveTokens headers with ⟨jt, ct⟩
  obtain ⟨resp, st2, ev, h, hs⟩ :=
    process_mcp_request_obj_envelope o jc cc st fields jt ct
  exact ⟨resp, st2, ev, by simp [mcp_endpoint, hrt, h], hs⟩

end McpSse
